import Mathlib

/-!
# npc command entry point (`cmd/npc/npc.go`)

A shallow embedding of the client's `main`, `npc.run` and `run` functions.

* Go strings are modelled by Lean strings; `strings.Contains` is a substring
  search on the characters.
* Calls into collaborators (`service`, `client`, `install`, `logs`, `os`,
  `exec`, `stun`) are recorded as actions of a trace, in program order; what a
  collaborator answers is an input of the model (`Host`).
* The package-level flag variables are the record `Flags`; a flag parser that
  ends the process on a bad command line is the input `Host.parseExit`.
* A byte slice is a list of `Fin 256`: the stack trace cut by `runtime.Stack`
  is counted in bytes.
-/

namespace Npc

/-! ## Strings -/

/-- Prefix test used by the substring search: `p` is a prefix of the first list. -/
def hasPrefixAt : List Char → List Char → Bool
  | _, [] => true
  | [], _ :: _ => false
  | c :: cs, p :: ps => c == p && hasPrefixAt cs ps

/-- Substring search over the characters, position by position. -/
def containsChars : List Char → List Char → Bool
  | [], sub => hasPrefixAt [] sub
  | c :: cs, sub => hasPrefixAt (c :: cs) sub || containsChars cs sub

/-- Go `strings.Contains(s, substr)`: reports whether `substr` is within `s`. -/
def stringsContains (s substr : String) : Bool :=
  containsChars s.data substr.data

/-! ## Argument derivation (`main`, lines 81-90) -/

/-- The `case "install", "start", "stop", "uninstall", "restart"` of the switch
at line 83. -/
def isLifecycleVerb (v : String) : Bool :=
  v == "install" || v == "start" || v == "stop" || v == "uninstall" || v == "restart"

/-- One iteration of the `for _, v := range os.Args[1:]` loop, on the current
value of `svcConfig.Arguments`. -/
def argumentsStep (arguments : List String) (v : String) : List String :=
  if isLifecycleVerb v then
    arguments
  else if !stringsContains v "-service=" && !stringsContains v "-debug=" then
    arguments ++ [v]
  else
    arguments

/-- Lines 81-90: `svcConfig.Arguments` after the loop over `os.Args[1:]` and the
final `append(svcConfig.Arguments, "-debug=false")`. -/
def deriveArguments (args : List String) : List String :=
  args.foldl argumentsStep [] ++ ["-debug=false"]

/-- The five lifecycle verbs. -/
def lifecycleVerbs : List String :=
  ["install", "start", "stop", "uninstall", "restart"]

/-- A token survives the derivation: it is no lifecycle verb and holds neither
marker as a substring. -/
def keptToken (v : String) : Prop :=
  v ∉ lifecycleVerbs ∧ ¬ "-service=".data <:+: v.data ∧ ¬ "-debug=".data <:+: v.data

instance (v : String) : Decidable (keptToken v) := by
  unfold keptToken; infer_instance

/-- Go `strings.Replace(s, old, new, -1)` for a non-empty `old`, on characters:
non-overlapping occurrences of `old` are replaced from the left. The first
argument bounds the number of steps; the length of `s` is enough. -/
def replaceAllChars (old new : List Char) : Nat → List Char → List Char
  | 0, s => s
  | _ + 1, [] => []
  | fuel + 1, c :: cs =>
    if hasPrefixAt (c :: cs) old then
      new ++ replaceAllChars old new fuel ((c :: cs).drop old.length)
    else
      c :: replaceAllChars old new fuel cs

/-- Go `strings.Replace(s, old, new, -1)`, used with the constants `"\\"` and
`"-config="` as `old`. -/
def stringsReplaceAll (s old new : String) : String :=
  ⟨replaceAllChars old.data new.data s.data.length s.data⟩

/-! ## Flags, host and actions -/

/-- The package-level flag variables (lines 24-43), as `flag.Parse()` leaves them. -/
structure Flags where
  serverAddr : String
  configPath : String
  verifyKey : String
  logType : String
  connType : String
  proxyUrl : String
  logLevel : String
  registerTime : Int
  localPort : Int
  password : String
  target : String
  localType : String
  logPath : String
  debug : Bool
  pprofAddr : String
  stunAddr : String
  ver : Bool
  disconnectTime : Int
deriving DecidableEq

/-- The default values given to `flag.String`, `flag.Int` and `flag.Bool`. -/
def Flags.defaults : Flags where
  serverAddr := ""
  configPath := ""
  verifyKey := ""
  logType := "stdout"
  connType := "tcp"
  proxyUrl := ""
  logLevel := "7"
  registerTime := 2
  localPort := 2000
  password := ""
  target := ""
  localType := "p2p"
  logPath := ""
  debug := true
  pprofAddr := ""
  stunAddr := "stun.stunprotocol.org:3478"
  ver := false
  disconnectTime := 60

/-- The fields of `config.LocalServer` that `run` assigns (lines 215-219). -/
structure LocalServer where
  typ : String
  password : String
  target : String
  port : Int
deriving DecidableEq

/-- The fields of `config.CommonConfig` that `run` assigns (lines 211-214). -/
structure CommonConfig where
  server : String
  vKey : String
  tp : String
deriving DecidableEq

/-- The `service.Config` built by `main` (lines 67-90). -/
structure ServiceConfig where
  name : String
  displayName : String
  description : String
  dependencies : List String
  option : List (String × String)
  arguments : List String
deriving DecidableEq

/-- What `c.Discover()` returns (line 120): the NAT type, the public host (or
nil) and the error (or nil). -/
structure DiscoverResult where
  nat : String
  host : Option String
  err : Option String

/-- What the collaborators and the platform answer. A collaborator call returns
to its caller with the answer recorded here. -/
structure Host where
  /-- Result of `common.IsWindows()`. -/
  isWindows : Bool
  /-- Result of `common.GetNpcLogPath()`. -/
  npcLogPath : String
  /-- The constant `install.SystemdScript`. -/
  systemdScript : String
  /-- The constant `install.SysvScript`. -/
  sysvScript : String
  /-- Result of `service.Platform()`. -/
  platform : String
  /-- The error of `service.New(prg, svcConfig)`, `none` for nil. -/
  serviceNewErr : Option String
  /-- The error of `service.Control(s, action)`, `none` for nil. -/
  controlErr : String → Option String
  /-- The rendering of `service.ControlAction` in the log line. -/
  controlAction : String
  /-- The error of `cmd.Run()` for the init script called with a verb. -/
  execErr : String → Option String
  /-- The status with which `flag.CommandLine.Parse` ends the process on a
  command line that starts with a flag: the flag set exits on an error, such
  as a flag that is not defined or a bad value. `none` when the call returns. -/
  parseExit : List String → Option Int
  /-- The flags after `flag.CommandLine.Parse(os.Args[2:])`. -/
  reparse : List String → Flags → Flags
  /-- Result of `c.Discover()` for a STUN server address. -/
  discover : String → DiscoverResult
  /-- Result of `common.GetEnvMap()`; `none` for a variable that is absent. -/
  env : String → Option String
  /-- Result of `common.GetConfigPath()`. -/
  defaultConfigPath : String
  /-- The constant `version.VERSION`. -/
  version : String
  /-- Result of `version.GetVersion()`. -/
  coreVersion : String

/-- The calls `main`, `npc.run`, `run` and the reconnection loop make, in the
order they make them. -/
inductive Action where
  | flagParse
  | logsReset
  | logsEnableFuncCallDepth (b : Bool)
  | logsSetLogFuncCallDepth (depth : Nat)
  | printVersion
  | logsSetLogger (adapter config : String)
  | serviceNew (config : ServiceConfig)
  | logsError (args : List String)
  | logsInfo (args : List String)
  | logsWarning (args : List String)
  | logsWarningStack (format value : String) (stack : List (Fin 256))
  | getTaskStatus (path : String)
  | flagCommandLineParse (args : List String)
  | registerLocalIp (server vKey tp proxyUrl : String) (hour : Int)
  | updateNpc
  | stunDiscover (serverAddr : String)
  | printf (args : List String)
  | osExit (code : Int)
  | execRun (name : String) (args : List String)
  | serviceControl (action : String)
  | installNpc
  | osSymlink (oldname newname : String)
  | osRemove (name : String)
  | serviceRun
  | wgWait
  | initPProf (addr : String)
  | goStartLocalServer (localServer : LocalServer) (commonConfig : CommonConfig)
  | goReconnectLoop (server vKey tp proxyUrl : String) (disconnectTime : Int)
  | goStartFromFile (path : String)
  | rpClientStart (server vKey tp proxyUrl : String) (disconnectTime : Int)
  | timeSleep (nanoseconds : Nat)
  | recover (value : String)
  | awaitExit
deriving DecidableEq

/-- How `main` ends. -/
inductive Ending where
  | returned
  | exited (code : Int)
  | blockedForever
deriving DecidableEq

/-! ## Flag parsing -/

/-- Go `flag`: an argument that is no flag, one shorter than two bytes or not
starting with `-`. Parsing stops before the first such argument. -/
def isNonFlag (s : String) : Bool :=
  match s.data with
  | '-' :: _ :: _ => false
  | _ => true

/-- The status with which `flag.Parse()` or `flag.CommandLine.Parse(args)` ends
the process, `none` when the call returns. With no argument, or a first
argument that is no flag, nothing is parsed and the call returns. -/
def flagParseExit (h : Host) (args : List String) : Option Int :=
  match args with
  | [] => none
  | s :: _ => if isNonFlag s then none else h.parseExit args

/-! ## `run` (lines 207-247) -/

/-- Go map index `env[key]`: the zero value `""` for an absent key. -/
def envIndex (env : String → Option String) (key : String) : String :=
  (env key).getD ""

/-- The function `run`: the flag variables as it leaves them and the calls it
makes. -/
def run (h : Host) (f : Flags) : Flags × List Action :=
  if f.password ≠ "" then
    (f, [Action.initPProf f.pprofAddr,
         Action.goStartLocalServer
           ⟨f.localType, f.password, f.target, f.localPort⟩
           ⟨f.serverAddr, f.verifyKey, f.connType⟩])
  else
    let serverAddr := if f.serverAddr = "" then envIndex h.env "NPC_SERVER_ADDR" else f.serverAddr
    let verifyKey := if f.verifyKey = "" then envIndex h.env "NPC_SERVER_VKEY" else f.verifyKey
    let f1 := { f with serverAddr := serverAddr, verifyKey := verifyKey }
    let pre := [Action.initPProf f.pprofAddr,
                Action.logsInfo ["客户端版本为：%s, 核心版本： %s", h.version, h.coreVersion]]
    if verifyKey ≠ "" ∧ serverAddr ≠ "" ∧ f.configPath = "" then
      (f1, pre ++ [Action.goReconnectLoop serverAddr verifyKey f.connType f.proxyUrl
                     f.disconnectTime])
    else
      let configPath := if f.configPath = "" then h.defaultConfigPath else f.configPath
      ({ f1 with configPath := configPath }, pre ++ [Action.goStartFromFile configPath])

/-- The goroutines a trace starts from `run`: its `go` statements. -/
def isLaunch : Action → Bool
  | Action.goStartLocalServer _ _ => true
  | Action.goReconnectLoop _ _ _ _ _ => true
  | Action.goStartFromFile _ => true
  | _ => false

/-- The launches of a trace, in order. -/
def launches (t : List Action) : List Action :=
  t.filter isLaunch

/-! ## The reconnection loop (lines 234-240) -/

/-- The three statements of the body of the `for` loop. -/
inductive LoopPoint where
  | start
  | log
  | sleep
deriving DecidableEq

/-- Go `time.Second`, in nanoseconds. -/
def timeSecond : Nat := 1000000000

/-- The parameters the loop reads: the flag variables at line 236. -/
structure ClientArgs where
  server : String
  vKey : String
  tp : String
  proxyUrl : String
  disconnectTime : Int
deriving DecidableEq

/-- One statement of the loop body: the call made at a program point, and the
next program point. The outcome of `Start()` is not read: the call is a
statement, and every point has a successor. -/
def loopStep (a : ClientArgs) (_outcome : String) : LoopPoint → Action × LoopPoint
  | LoopPoint.start =>
    (Action.rpClientStart a.server a.vKey a.tp a.proxyUrl a.disconnectTime, LoopPoint.log)
  | LoopPoint.log =>
    (Action.logsInfo ["客户端关闭！它将在五秒钟内重新连接"], LoopPoint.sleep)
  | LoopPoint.sleep =>
    (Action.timeSleep (timeSecond * 5), LoopPoint.start)

/-- The first `steps` statements the loop executes from a program point;
`outcomes i` is the outcome of the invocation of `Start()` numbered `i`, and
`i` counts the invocations completed so far. -/
def loopTrace (a : ClientArgs) (outcomes : Nat → String) :
    Nat → LoopPoint → Nat → List Action
  | 0, _, _ => []
  | steps + 1, pc, i =>
    let r := loopStep a (outcomes i) pc
    r.1 :: loopTrace a outcomes steps r.2 (if pc = LoopPoint.start then i + 1 else i)

/-- The loop from its entry. -/
def reconnectLoop (a : ClientArgs) (outcomes : Nat → String) (steps : Nat) : List Action :=
  loopTrace a outcomes steps LoopPoint.start 0

/-- Whether a call is an invocation of `Start()`. -/
def isStart : Action → Bool
  | Action.rpClientStart _ _ _ _ _ => true
  | _ => false

/-! ## `npc.run` (lines 190-205) -/

/-- How the statements of a function body end, before its deferred calls run. -/
inductive BodyEnd where
  | returned
  | panicking (value : String)
  | blocked
deriving DecidableEq

/-- How the goroutine of `npc.run` ends. -/
inductive TaskEnd where
  | returnedNil
  | blockedOnExit
  | propagated (value : String)
deriving DecidableEq

/-- The statements of `npc.run` after the `defer` (lines 199-204).
`fault = some (k, v)`: the call `run()` panics with value `v` after its first
`k` calls, and the statements after it are not executed. `exitFires`: whether
`p.exit` is ever closed; the `select` has this one case. -/
def npcRunBody (h : Host) (f : Flags) (fault : Option (Nat × String)) (exitFires : Bool) :
    List Action × BodyEnd :=
  match fault with
  | some (k, v) => ((run h f).2.take k, BodyEnd.panicking v)
  | none =>
    if exitFires then
      ((run h f).2 ++ [Action.awaitExit, Action.logsWarning ["stop..."]], BodyEnd.returned)
    else
      ((run h f).2 ++ [Action.awaitExit], BodyEnd.blocked)

/-- Go `runtime.Stack(buf, false)` on the bytes `trace` of the formatted stack
trace of the goroutine: the trace is written into `buf`, cut at the length of
`buf`. The result holds the buffer after the call and the number of bytes
written. -/
def runtimeStack (trace buf : List (Fin 256)) : List (Fin 256) × Nat :=
  let written := trace.take buf.length
  (written ++ buf.drop written.length, written.length)

/-- The deferred closure (lines 191-198). `panicValue` is the value of the panic
in flight, `none` on an ordinary return; `stackTrace` holds the bytes of the
full stack trace that `runtime.Stack` formats. The result holds the calls made
and whether `recover()` was called. -/
def npcRunDeferred (stackTrace : List (Fin 256)) (panicValue : Option String) :
    List Action × Bool :=
  match panicValue with
  | some err =>
    let size := 64 <<< 10
    let buf := List.replicate size (0 : Fin 256)
    let r := runtimeStack stackTrace buf
    let buf := r.1.take r.2
    ([Action.recover err, Action.logsWarningStack "npc: panic serving %v: %v\n%s" err buf], true)
  | none => ([], true)

/-- The method `npc.run`: the body, then the deferred closure. A body that
blocks never reaches the deferred call; a panic that the closure recovers ends
the function there, which returns the zero value of its result to its caller. -/
def npcRun (h : Host) (f : Flags) (fault : Option (Nat × String))
    (stackTrace : List (Fin 256)) (exitFires : Bool) : List Action × TaskEnd :=
  match npcRunBody h f fault exitFires with
  | (t, BodyEnd.blocked) => (t, TaskEnd.blockedOnExit)
  | (t, BodyEnd.returned) => (t ++ (npcRunDeferred stackTrace none).1, TaskEnd.returnedNil)
  | (t, BodyEnd.panicking v) =>
    let d := npcRunDeferred stackTrace (some v)
    (t ++ d.1, if d.2 then TaskEnd.returnedNil else TaskEnd.propagated v)

/-! ## `main` (lines 45-172) -/

/-- Lines 54-59: the log path after the default and the escaping on Windows. -/
def resolveLogPath (h : Host) (f : Flags) : String :=
  let logPath := if f.logPath = "" then h.npcLogPath else f.logPath
  if h.isWindows then stringsReplaceAll logPath "\\" "\\\\" else logPath

/-- Lines 60-64: the call to `logs.SetLogger`. -/
def setLogger (h : Host) (f : Flags) : Action :=
  if f.debug then
    Action.logsSetLogger "console" ("\x7b\"level\":" ++ f.logLevel ++ ",\"color\":true\x7d")
  else
    Action.logsSetLogger "file"
      ("\x7b\"level\":" ++ f.logLevel ++ ",\"filename\":\"" ++ resolveLogPath h f ++
        "\",\"daily\":false,\"maxlines\":100000,\"color\":true\x7d")

/-- Lines 67-90: the service configuration. -/
def svcConfig (h : Host) (args : List String) : ServiceConfig where
  name := "Npc"
  displayName := "nps内网穿透客户端"
  description := "一款轻量级、功能强大的内网穿透代理服务器。支持tcp、udp流量转发，支持内网http代理、内网socks5代理，同时支持snappy压缩、站点保护、加密传输、多路复用、header修改等。支持web图形化管理，集成多用户模式。"
  dependencies :=
    if h.isWindows then [] else ["Requires=network.target", "After=network-online.target syslog.target"]
  option :=
    if h.isWindows then [] else [("SystemdScript", h.systemdScript), ("SysvScript", h.sysvScript)]
  arguments := deriveArguments args

/-- The log line of a failed control call (lines 140, 149, 161). -/
def controlErrLog (h : Host) (action : String) : List Action :=
  match h.controlErr action with
  | some err => [Action.logsError ["Valid actions: %q\n%s", h.controlAction, err]]
  | none => []

/-- Lines 104-171: the switch on `os.Args[1]` and what follows it. The result
holds the calls made and how `main` ends. -/
def dispatch (h : Host) (f : Flags) (args : List String) : List Action × Ending :=
  let name := (svcConfig h args).name
  match args with
  | [] => ([Action.serviceRun], Ending.returned)
  | verb :: rest =>
    if verb = "status" then
      match rest with
      | [] => ([Action.serviceRun], Ending.returned)
      | arg :: _ =>
        ([Action.getTaskStatus (stringsReplaceAll arg "-config=" ""), Action.serviceRun],
          Ending.returned)
    else if verb = "register" then
      match flagParseExit h rest with
      | some code =>
        ([Action.flagCommandLineParse rest, Action.osExit code], Ending.exited code)
      | none =>
        let f1 := h.reparse rest f
        ([Action.flagCommandLineParse rest,
          Action.registerLocalIp f1.serverAddr f1.verifyKey f1.connType f1.proxyUrl
            f1.registerTime,
          Action.serviceRun], Ending.returned)
    else if verb = "update" then
      ([Action.updateNpc], Ending.returned)
    else if verb = "nat" then
      let r := h.discover f.stunAddr
      if r.err.isSome ∨ r.host.isNone then
        ([Action.stunDiscover f.stunAddr,
          Action.logsError ["get nat type error", r.err.getD "<nil>"]], Ending.returned)
      else
        ([Action.stunDiscover f.stunAddr,
          Action.printf ["nat type: %s \npublic address: %s\n", r.nat, r.host.getD ""],
          Action.osExit 0], Ending.exited 0)
    else if verb = "start" ∨ verb = "stop" ∨ verb = "restart" then
      if h.platform = "unix-systemv" then
        ([Action.logsInfo ["unix-systemv service"],
          Action.execRun ("/etc/init.d/" ++ name) [verb]] ++
          (match h.execErr verb with
           | some err => [Action.logsError [err]]
           | none => []), Ending.returned)
      else
        ([Action.serviceControl verb] ++ controlErrLog h verb, Ending.returned)
    else if verb = "install" then
      ([Action.serviceControl "stop", Action.serviceControl "uninstall", Action.installNpc,
        Action.serviceControl verb] ++ controlErrLog h verb ++
        (if h.platform = "unix-systemv" then
          [Action.logsInfo ["unix-systemv service"],
           Action.osSymlink ("/etc/init.d/" ++ name) ("/etc/rc.d/S90" ++ name),
           Action.osSymlink ("/etc/init.d/" ++ name) ("/etc/rc.d/K02" ++ name)]
         else []), Ending.returned)
    else if verb = "uninstall" then
      ([Action.serviceControl verb] ++ controlErrLog h verb ++
        (if h.platform = "unix-systemv" then
          [Action.logsInfo ["unix-systemv service"],
           Action.osRemove ("/etc/rc.d/S90" ++ name),
           Action.osRemove ("/etc/rc.d/K02" ++ name)]
         else []), Ending.returned)
    else
      ([Action.serviceRun], Ending.returned)

/-- The function `main`; `args` is `os.Args[1:]` and `f` the flag variables
after `flag.Parse()`, when it returns. -/
def main (h : Host) (f : Flags) (args : List String) : List Action × Ending :=
  match flagParseExit h args with
  | some code => ([Action.flagParse, Action.osExit code], Ending.exited code)
  | none =>
    let t0 := [Action.flagParse, Action.logsReset, Action.logsEnableFuncCallDepth true,
               Action.logsSetLogFuncCallDepth 3]
    if f.ver then
      (t0 ++ [Action.printVersion], Ending.returned)
    else
      let t1 := t0 ++ [setLogger h f, Action.serviceNew (svcConfig h args)]
      match h.serviceNewErr with
      | some err =>
        (t1 ++ [Action.logsError [err, "服务功能已禁用"]] ++ (run h f).2 ++ [Action.wgWait],
          Ending.blockedForever)
      | none =>
        let d := dispatch h f args
        (t1 ++ d.1, d.2)

/-- The action of a control call, `none` for another call. -/
def asControl : Action → Option String
  | Action.serviceControl a => some a
  | _ => none

/-- The program and arguments of a program invocation, `none` for another call. -/
def asExec : Action → Option (String × List String)
  | Action.execRun n a => some (n, a)
  | _ => none

/-- The target and link name of a symlink creation, `none` for another call. -/
def asSymlink : Action → Option (String × String)
  | Action.osSymlink o n => some (o, n)
  | _ => none

/-- The path of a file removal, `none` for another call. -/
def asRemove : Action → Option String
  | Action.osRemove n => some n
  | _ => none

/-- The control calls of a trace, in order. -/
def controlCalls (t : List Action) : List String :=
  t.filterMap asControl

/-- The program invocations of a trace, in order. -/
def execCalls (t : List Action) : List (String × List String) :=
  t.filterMap asExec

/-- The symlinks a trace creates, in order. -/
def symlinkCalls (t : List Action) : List (String × String) :=
  t.filterMap asSymlink

/-- The paths a trace removes, in order. -/
def removeCalls (t : List Action) : List String :=
  t.filterMap asRemove

/-- A concrete host: Linux with systemd, every collaborator call succeeding,
an empty environment. -/
def linuxHost : Host where
  isWindows := false
  npcLogPath := "/var/log/npc.log"
  systemdScript := ""
  sysvScript := ""
  platform := "linux-systemd"
  serviceNewErr := none
  controlErr := fun _ => none
  controlAction := "[start stop restart install uninstall]"
  execErr := fun _ => none
  parseExit := fun _ => none
  reparse := fun _ f => f
  discover := fun _ => ⟨"Full cone NAT", some "1.2.3.4:5", none⟩
  env := fun _ => none
  defaultConfigPath := "conf/npc.conf"
  version := "0.26.10"
  coreVersion := "0.26.0"

/-- The same host on the System-V-style platform. -/
def sysvHost : Host :=
  { linuxHost with platform := "unix-systemv" }

/-- The value of a flag after the backfill the spec describes: the flag when
it is non-empty, else the environment variable, empty when absent. -/
def flagOrEnv (flag : String) (env : String → Option String) (key : String) : String :=
  if flag = "" then (env key).getD "" else flag

/-- The endpoint and the authentication key a launched mode is handed: the
`Server` and `VKey` fields for the local server, the first two arguments of
`client.NewRPClient` for the reconnection loop; `client.StartFromFile` is
handed neither. -/
def receivedEndpointKey : Action → Option (String × String)
  | Action.goStartLocalServer _ c => some (c.server, c.vKey)
  | Action.goReconnectLoop server vKey _ _ _ => some (server, vKey)
  | _ => none

/-- A host whose environment holds both variables. -/
def envHost : Host :=
  { linuxHost with env := fun k =>
      if k = "NPC_SERVER_ADDR" then some "e1"
      else if k = "NPC_SERVER_VKEY" then some "e2"
      else none }

/-- Flags of a peer-to-peer invocation that leaves `-server` and `-vkey` out. -/
def p2pFlags : Flags :=
  { Flags.defaults with password := "p2p-secret", target := "10.0.0.5:80" }

/-- One round of the reconnection discipline as the spec words it: connect and
run until disconnected, log a reconnect notice, wait five seconds. -/
def reconnectRound (a : ClientArgs) : List Action :=
  [Action.rpClientStart a.server a.vKey a.tp a.proxyUrl a.disconnectTime,
   Action.logsInfo ["客户端关闭！它将在五秒钟内重新连接"],
   Action.timeSleep 5000000000]

/-! ### Lemmas on the substring search -/

theorem hasPrefixAt_iff (s p : List Char) : hasPrefixAt s p = true ↔ p <+: s := by
  induction p generalizing s with
  | nil => simp [hasPrefixAt]
  | cons a ps ih =>
    cases s with
    | nil => simp [hasPrefixAt]
    | cons c cs =>
      simp only [hasPrefixAt, Bool.and_eq_true, beq_iff_eq, ih, List.cons_prefix_cons]
      constructor
      · rintro ⟨h1, h2⟩; exact ⟨h1.symm, h2⟩
      · rintro ⟨h1, h2⟩; exact ⟨h1.symm, h2⟩

theorem containsChars_iff (s sub : List Char) : containsChars s sub = true ↔ sub <:+: s := by
  induction s with
  | nil =>
    simp only [containsChars, hasPrefixAt_iff, List.prefix_nil, List.infix_nil]
  | cons c cs ih =>
    simp only [containsChars, Bool.or_eq_true, hasPrefixAt_iff, ih, List.infix_cons_iff]

theorem stringsContains_iff (s sub : String) :
    stringsContains s sub = true ↔ sub.data <:+: s.data :=
  containsChars_iff s.data sub.data

theorem isLifecycleVerb_iff (v : String) : isLifecycleVerb v = true ↔ v ∈ lifecycleVerbs := by
  simp [isLifecycleVerb, lifecycleVerbs, or_assoc]

theorem argumentsStep_eq (arguments : List String) (v : String) :
    argumentsStep arguments v = arguments ++ (if keptToken v then [v] else []) := by
  unfold argumentsStep keptToken
  by_cases hv : isLifecycleVerb v = true
  · have hm := (isLifecycleVerb_iff v).1 hv
    simp [hv, hm]
  · have hm : v ∉ lifecycleVerbs := fun h => hv ((isLifecycleVerb_iff v).2 h)
    by_cases h1 : stringsContains v "-service=" = true
    · have h1i := (stringsContains_iff v "-service=").1 h1
      simp [hv, h1, h1i]
    · have h1i : ¬ "-service=".data <:+: v.data :=
        fun h => h1 ((stringsContains_iff v "-service=").2 h)
      by_cases h2 : stringsContains v "-debug=" = true
      · have h2i := (stringsContains_iff v "-debug=").1 h2
        simp [hv, h1, h2, h2i]
      · have h2i : ¬ "-debug=".data <:+: v.data :=
          fun h => h2 ((stringsContains_iff v "-debug=").2 h)
        simp [hv, h1, h2, hm, h1i, h2i]

theorem foldl_argumentsStep (args acc : List String) :
    args.foldl argumentsStep acc = acc ++ args.filter (fun v => decide (keptToken v)) := by
  induction args generalizing acc with
  | nil => simp
  | cons v vs ih =>
    rw [List.foldl_cons, ih, argumentsStep_eq]
    by_cases hk : keptToken v
    · simp [hk, List.filter_cons]
    · simp [hk, List.filter_cons]

theorem deriveArguments_eq (args : List String) :
    deriveArguments args = args.filter (fun v => decide (keptToken v)) ++ ["-debug=false"] := by
  unfold deriveArguments
  rw [foldl_argumentsStep]
  simp

theorem not_keptToken_debugFalse : ¬ keptToken "-debug=false" := by
  decide

/-! ## Argument derivation -/

/-- C1: for every command line, the arguments of the service configuration are
the tokens that are neither a lifecycle verb nor hold `-service=` or `-debug=`
as a substring, in their order, followed by `-debug=false`; every element before
the last is such a token, the last element is `-debug=false`, and `-debug=false`
occurs exactly once. -/
theorem svcConfig_arguments (h : Host) (args : List String) :
    (svcConfig h args).arguments
        = args.filter (fun v => decide (keptToken v)) ++ ["-debug=false"] ∧
      (∀ v ∈ (svcConfig h args).arguments.dropLast, keptToken v) ∧
      (svcConfig h args).arguments.getLast? = some "-debug=false" ∧
      (svcConfig h args).arguments.count "-debug=false" = 1 := by
  have e : (svcConfig h args).arguments
      = args.filter (fun v => decide (keptToken v)) ++ ["-debug=false"] :=
    deriveArguments_eq args
  refine ⟨e, ?_, ?_, ?_⟩
  · intro v hv
    rw [e, List.dropLast_concat] at hv
    simpa using (List.mem_filter.1 hv).2
  · rw [e]; simp
  · rw [e, List.count_append]
    have h0 : (args.filter (fun v => decide (keptToken v))).count "-debug=false" = 0 := by
      rw [List.count_eq_zero]
      intro hm
      exact not_keptToken_debugFalse (by simpa using (List.mem_filter.1 hm).2)
    rw [h0]
    simp

/-! ## The lifecycle verbs in `main` -/

theorem flagParseExit_nonFlag (h : Host) (s : String) (rest : List String)
    (hs : isNonFlag s = true) : flagParseExit h (s :: rest) = none := by
  simp [flagParseExit, hs]

theorem main_flag_exit (h : Host) (f : Flags) (code : Int)
    (hx : h.parseExit ["-service=x"] = some code) :
    main h f ["-service=x"] = ([Action.flagParse, Action.osExit code], Ending.exited code) := by
  have e : flagParseExit h ["-service=x"] = some code := by
    rw [← hx]; rfl
  simp [main, e]

theorem main_eq_dispatch (h : Host) (f : Flags) (args : List String)
    (hv : f.ver = false) (hn : h.serviceNewErr = none) (hx : flagParseExit h args = none) :
    main h f args =
      ([Action.flagParse, Action.logsReset, Action.logsEnableFuncCallDepth true,
        Action.logsSetLogFuncCallDepth 3, setLogger h f, Action.serviceNew (svcConfig h args)]
        ++ (dispatch h f args).1, (dispatch h f args).2) := by
  simp [main, hv, hn, hx]

theorem asControl_setLogger (h : Host) (f : Flags) : asControl (setLogger h f) = none := by
  unfold setLogger; split <;> rfl

theorem asExec_setLogger (h : Host) (f : Flags) : asExec (setLogger h f) = none := by
  unfold setLogger; split <;> rfl

theorem asSymlink_setLogger (h : Host) (f : Flags) : asSymlink (setLogger h f) = none := by
  unfold setLogger; split <;> rfl

theorem asRemove_setLogger (h : Host) (f : Flags) : asRemove (setLogger h f) = none := by
  unfold setLogger; split <;> rfl

theorem controlCalls_controlErrLog (h : Host) (a : String) :
    List.filterMap asControl (controlErrLog h a) = [] := by
  unfold controlErrLog; split <;> simp [asControl]

theorem execCalls_controlErrLog (h : Host) (a : String) :
    List.filterMap asExec (controlErrLog h a) = [] := by
  unfold controlErrLog; split <;> simp [asExec]

theorem symlinkCalls_controlErrLog (h : Host) (a : String) :
    List.filterMap asSymlink (controlErrLog h a) = [] := by
  unfold controlErrLog; split <;> simp [asSymlink]

theorem removeCalls_controlErrLog (h : Host) (a : String) :
    List.filterMap asRemove (controlErrLog h a) = [] := by
  unfold controlErrLog; split <;> simp [asRemove]

theorem controlCalls_main (h : Host) (f : Flags) (args : List String)
    (hv : f.ver = false) (hn : h.serviceNewErr = none) (hx : flagParseExit h args = none) :
    controlCalls (main h f args).1 = controlCalls (dispatch h f args).1 := by
  rw [main_eq_dispatch h f args hv hn hx]
  have e := asControl_setLogger h f
  simp only [controlCalls, List.filterMap_append, List.filterMap_cons, e]
  rfl

theorem execCalls_main (h : Host) (f : Flags) (args : List String)
    (hv : f.ver = false) (hn : h.serviceNewErr = none) (hx : flagParseExit h args = none) :
    execCalls (main h f args).1 = execCalls (dispatch h f args).1 := by
  rw [main_eq_dispatch h f args hv hn hx]
  have e := asExec_setLogger h f
  simp only [execCalls, List.filterMap_append, List.filterMap_cons, e]
  rfl

theorem symlinkCalls_main (h : Host) (f : Flags) (args : List String)
    (hv : f.ver = false) (hn : h.serviceNewErr = none) (hx : flagParseExit h args = none) :
    symlinkCalls (main h f args).1 = symlinkCalls (dispatch h f args).1 := by
  rw [main_eq_dispatch h f args hv hn hx]
  have e := asSymlink_setLogger h f
  simp only [symlinkCalls, List.filterMap_append, List.filterMap_cons, e]
  rfl

theorem removeCalls_main (h : Host) (f : Flags) (args : List String)
    (hv : f.ver = false) (hn : h.serviceNewErr = none) (hx : flagParseExit h args = none) :
    removeCalls (main h f args).1 = removeCalls (dispatch h f args).1 := by
  rw [main_eq_dispatch h f args hv hn hx]
  have e := asRemove_setLogger h f
  simp only [removeCalls, List.filterMap_append, List.filterMap_cons, e]
  rfl

theorem svcConfig_name (h : Host) (args : List String) : (svcConfig h args).name = "Npc" := rfl

theorem dispatch_install (h : Host) (f : Flags) (rest : List String) :
    dispatch h f ("install" :: rest) =
      ([Action.serviceControl "stop", Action.serviceControl "uninstall", Action.installNpc,
        Action.serviceControl "install"] ++ controlErrLog h "install" ++
        (if h.platform = "unix-systemv" then
          [Action.logsInfo ["unix-systemv service"],
           Action.osSymlink "/etc/init.d/Npc" "/etc/rc.d/S90Npc",
           Action.osSymlink "/etc/init.d/Npc" "/etc/rc.d/K02Npc"]
         else []), Ending.returned) := by
  simp [dispatch, svcConfig_name]

theorem dispatch_uninstall (h : Host) (f : Flags) (rest : List String) :
    dispatch h f ("uninstall" :: rest) =
      ([Action.serviceControl "uninstall"] ++ controlErrLog h "uninstall" ++
        (if h.platform = "unix-systemv" then
          [Action.logsInfo ["unix-systemv service"],
           Action.osRemove "/etc/rc.d/S90Npc",
           Action.osRemove "/etc/rc.d/K02Npc"]
         else []), Ending.returned) := by
  simp [dispatch, svcConfig_name]

theorem dispatch_control_sysv (h : Host) (f : Flags) (verb : String) (rest : List String)
    (hp : h.platform = "unix-systemv") (hverb : verb ∈ ["start", "stop", "restart"]) :
    dispatch h f (verb :: rest) =
      ([Action.logsInfo ["unix-systemv service"],
        Action.execRun "/etc/init.d/Npc" [verb]] ++
        (match h.execErr verb with
         | some err => [Action.logsError [err]]
         | none => []), Ending.returned) := by
  simp only [List.mem_cons, List.mem_singleton, List.not_mem_nil, or_false] at hverb
  rcases hverb with rfl | rfl | rfl <;> simp [dispatch, svcConfig_name, hp]

/-- C8: with the service created and the first token `install`, `main` issues
the control calls `stop` and `uninstall`, then `install.InstallNpc` and the
control call `install`, in this order and one after the other, and what `main`
does is the same whatever the `stop` and `uninstall` calls answer. -/
theorem install_stops_and_uninstalls_first (h : Host) (f : Flags) (rest : List String)
    (hv : f.ver = false) (hn : h.serviceNewErr = none) :
    ([Action.serviceControl "stop", Action.serviceControl "uninstall", Action.installNpc,
        Action.serviceControl "install"] <:+: (main h f ("install" :: rest)).1) ∧
      (controlCalls (main h f ("install" :: rest)).1).take 2 = ["stop", "uninstall"] ∧
      ∀ e1 e2 : Option String,
        main { h with controlErr := fun a =>
                 if a = "stop" then e1 else if a = "uninstall" then e2 else h.controlErr a }
            f ("install" :: rest)
          = main h f ("install" :: rest) := by
  refine ⟨?_, ?_, ?_⟩
  · rw [main_eq_dispatch h f _ hv hn (flagParseExit_nonFlag h "install" _ rfl), dispatch_install]
    exact ⟨_, _, by simp only [List.append_assoc]; rfl⟩
  · rw [controlCalls_main h f _ hv hn (flagParseExit_nonFlag h "install" _ rfl), dispatch_install]
    simp [controlCalls, List.filterMap_cons, asControl]
  · intro e1 e2
    have a := main_eq_dispatch
      { h with controlErr := fun a =>
          if a = "stop" then e1 else if a = "uninstall" then e2 else h.controlErr a }
      f ("install" :: rest) hv hn (flagParseExit_nonFlag _ _ _ rfl)
    rw [a, main_eq_dispatch h f _ hv hn (flagParseExit_nonFlag h "install" _ rfl),
      dispatch_install, dispatch_install]
    simp [setLogger, resolveLogPath, svcConfig, controlErrLog]

/-- Witness of C8 on a Linux host, command line `install`. -/
theorem install_stops_and_uninstalls_first_witness :
    [Action.serviceControl "stop", Action.serviceControl "uninstall", Action.installNpc,
        Action.serviceControl "install"] <:+: (main linuxHost Flags.defaults ["install"]).1 :=
  (install_stops_and_uninstalls_first linuxHost Flags.defaults [] rfl rfl).1

/-- C9, as the spec states it, fails: on a Linux host and on the System-V-style
host, the command line `install` issues no `start` control call and runs no
program, so the service is not started by it. -/
theorem install_issues_no_start :
    "start" ∉ controlCalls (main linuxHost Flags.defaults ["install"]).1 ∧
      execCalls (main linuxHost Flags.defaults ["install"]).1 = [] ∧
      "start" ∉ controlCalls (main sysvHost Flags.defaults ["install"]).1 ∧
      execCalls (main sysvHost Flags.defaults ["install"]).1 = [] := by
  decide

/-- C9, amended: with the service created and the first token `install`, the
control calls of `main` are `stop`, `uninstall` and `install`, in this order,
on every platform; `main` runs no program (so not the init script), the last
control call is `install`, and `main` returns without a `start`. -/
theorem install_control_calls (h : Host) (f : Flags) (rest : List String)
    (hv : f.ver = false) (hn : h.serviceNewErr = none) :
    controlCalls (main h f ("install" :: rest)).1 = ["stop", "uninstall", "install"] ∧
      execCalls (main h f ("install" :: rest)).1 = [] ∧
      "start" ∉ controlCalls (main h f ("install" :: rest)).1 ∧
      (main h f ("install" :: rest)).2 = Ending.returned := by
  have hc : controlCalls (main h f ("install" :: rest)).1 = ["stop", "uninstall", "install"] := by
    rw [controlCalls_main h f _ hv hn (flagParseExit_nonFlag h "install" _ rfl), dispatch_install]
    simp only [controlCalls, List.filterMap_append, controlCalls_controlErrLog]
    split <;> simp [List.filterMap_cons, asControl]
  refine ⟨hc, ?_, ?_, ?_⟩
  · rw [execCalls_main h f _ hv hn (flagParseExit_nonFlag h "install" _ rfl), dispatch_install]
    simp only [execCalls, List.filterMap_append, execCalls_controlErrLog]
    split <;> simp [List.filterMap_cons, asExec]
  · rw [hc]; decide
  · rw [main_eq_dispatch h f _ hv hn (flagParseExit_nonFlag h "install" _ rfl), dispatch_install]

/-- Witness of the amended C9 on the System-V-style host. -/
theorem install_control_calls_witness :
    controlCalls (main sysvHost Flags.defaults ["install", "-server=1.2.3.4:8024"]).1
      = ["stop", "uninstall", "install"] :=
  (install_control_calls sysvHost Flags.defaults ["-server=1.2.3.4:8024"] rfl rfl).1

/-! ## Ordering symlinks -/

/-- C10: with the service created, `install` creates symlinks exactly on the
platform `unix-systemv`, and then the two links `/etc/rc.d/S90Npc` and
`/etc/rc.d/K02Npc` to `/etc/init.d/Npc`; `uninstall` removes files exactly on
that platform, and then these two paths; the paths `uninstall` removes are the
link names `install` creates; `install` removes nothing and `uninstall` links
nothing. -/
theorem ordering_symlinks (h : Host) (f : Flags) (rest rest' : List String)
    (hv : f.ver = false) (hn : h.serviceNewErr = none) :
    symlinkCalls (main h f ("install" :: rest)).1 =
        (if h.platform = "unix-systemv" then
          [("/etc/init.d/Npc", "/etc/rc.d/S90Npc"), ("/etc/init.d/Npc", "/etc/rc.d/K02Npc")]
         else []) ∧
      removeCalls (main h f ("uninstall" :: rest')).1 =
        (if h.platform = "unix-systemv" then ["/etc/rc.d/S90Npc", "/etc/rc.d/K02Npc"] else []) ∧
      (symlinkCalls (main h f ("install" :: rest)).1 ≠ [] ↔ h.platform = "unix-systemv") ∧
      (removeCalls (main h f ("uninstall" :: rest')).1 ≠ [] ↔ h.platform = "unix-systemv") ∧
      removeCalls (main h f ("uninstall" :: rest')).1 =
        (symlinkCalls (main h f ("install" :: rest)).1).map Prod.snd ∧
      removeCalls (main h f ("install" :: rest)).1 = [] ∧
      symlinkCalls (main h f ("uninstall" :: rest')).1 = [] := by
  have hs : symlinkCalls (main h f ("install" :: rest)).1 =
      (if h.platform = "unix-systemv" then
        [("/etc/init.d/Npc", "/etc/rc.d/S90Npc"), ("/etc/init.d/Npc", "/etc/rc.d/K02Npc")]
       else []) := by
    rw [symlinkCalls_main h f _ hv hn (flagParseExit_nonFlag h "install" _ rfl), dispatch_install]
    simp only [symlinkCalls, List.filterMap_append, symlinkCalls_controlErrLog]
    split <;> simp [List.filterMap_cons, asSymlink]
  have hr : removeCalls (main h f ("uninstall" :: rest')).1 =
      (if h.platform = "unix-systemv" then ["/etc/rc.d/S90Npc", "/etc/rc.d/K02Npc"] else []) := by
    rw [removeCalls_main h f _ hv hn (flagParseExit_nonFlag h "uninstall" _ rfl), dispatch_uninstall]
    simp only [removeCalls, List.filterMap_append, removeCalls_controlErrLog]
    split <;> simp [List.filterMap_cons, asRemove]
  refine ⟨hs, hr, ?_, ?_, ?_, ?_, ?_⟩
  · rw [hs]; split <;> simp [*]
  · rw [hr]; split <;> simp [*]
  · rw [hs, hr]; split <;> simp
  · rw [removeCalls_main h f _ hv hn (flagParseExit_nonFlag h "install" _ rfl), dispatch_install]
    simp only [removeCalls, List.filterMap_append, removeCalls_controlErrLog]
    split <;> simp [List.filterMap_cons, asRemove]
  · rw [symlinkCalls_main h f _ hv hn (flagParseExit_nonFlag h "uninstall" _ rfl), dispatch_uninstall]
    simp only [symlinkCalls, List.filterMap_append, symlinkCalls_controlErrLog]
    split <;> simp [List.filterMap_cons, asSymlink]

/-- Witness of C10 on the System-V-style host. -/
theorem ordering_symlinks_witness :
    symlinkCalls (main sysvHost Flags.defaults ["install"]).1 =
        [("/etc/init.d/Npc", "/etc/rc.d/S90Npc"), ("/etc/init.d/Npc", "/etc/rc.d/K02Npc")] ∧
      removeCalls (main sysvHost Flags.defaults ["uninstall"]).1 =
        ["/etc/rc.d/S90Npc", "/etc/rc.d/K02Npc"] :=
  ⟨(ordering_symlinks sysvHost Flags.defaults [] [] rfl rfl).1,
   (ordering_symlinks sysvHost Flags.defaults [] [] rfl rfl).2.1⟩

/-! ## The System-V-style platform -/

/-- C6, as the spec states it, fails for `install` and for `uninstall`: on the
System-V-style host both issue control calls and neither runs the init script. -/
theorem sysv_install_uses_control :
    controlCalls (main sysvHost Flags.defaults ["install"]).1
        = ["stop", "uninstall", "install"] ∧
      execCalls (main sysvHost Flags.defaults ["install"]).1 = [] ∧
      controlCalls (main sysvHost Flags.defaults ["uninstall"]).1 = ["uninstall"] ∧
      execCalls (main sysvHost Flags.defaults ["uninstall"]).1 = [] := by
  decide

/-- C6, amended: on the platform `unix-systemv`, with the service created, each
of `start`, `stop` and `restart` as first token runs `/etc/init.d/Npc` with that
verb, once, and issues no control call; `install` and `uninstall` issue control
calls there (`stop`, `uninstall`, `install`, and `uninstall`) and run no
program. -/
theorem sysv_verbs (h : Host) (f : Flags) (verb : String) (rest : List String)
    (hp : h.platform = "unix-systemv") (hv : f.ver = false) (hn : h.serviceNewErr = none) :
    (verb ∈ ["start", "stop", "restart"] →
        execCalls (main h f (verb :: rest)).1 = [("/etc/init.d/Npc", [verb])] ∧
        controlCalls (main h f (verb :: rest)).1 = []) ∧
      controlCalls (main h f ("install" :: rest)).1 = ["stop", "uninstall", "install"] ∧
      execCalls (main h f ("install" :: rest)).1 = [] ∧
      controlCalls (main h f ("uninstall" :: rest)).1 = ["uninstall"] ∧
      execCalls (main h f ("uninstall" :: rest)).1 = [] := by
  refine ⟨?_, ?_, ?_, ?_, ?_⟩
  · intro hverb
    have hx : flagParseExit h (verb :: rest) = none := by
      simp only [List.mem_cons, List.mem_singleton, List.not_mem_nil, or_false] at hverb
      rcases hverb with rfl | rfl | rfl <;> exact flagParseExit_nonFlag _ _ _ rfl
    rw [execCalls_main h f _ hv hn hx, controlCalls_main h f _ hv hn hx,
      dispatch_control_sysv h f verb rest hp hverb]
    constructor
    · simp only [execCalls, List.filterMap_append]
      split <;> simp [List.filterMap_cons, asExec]
    · simp only [controlCalls, List.filterMap_append]
      split <;> simp [List.filterMap_cons, asControl]
  · rw [controlCalls_main h f _ hv hn (flagParseExit_nonFlag h "install" _ rfl), dispatch_install]
    simp only [controlCalls, List.filterMap_append, controlCalls_controlErrLog]
    split <;> simp [List.filterMap_cons, asControl]
  · rw [execCalls_main h f _ hv hn (flagParseExit_nonFlag h "install" _ rfl), dispatch_install]
    simp only [execCalls, List.filterMap_append, execCalls_controlErrLog]
    split <;> simp [List.filterMap_cons, asExec]
  · rw [controlCalls_main h f _ hv hn (flagParseExit_nonFlag h "uninstall" _ rfl), dispatch_uninstall]
    simp only [controlCalls, List.filterMap_append, controlCalls_controlErrLog]
    split <;> simp [List.filterMap_cons, asControl]
  · rw [execCalls_main h f _ hv hn (flagParseExit_nonFlag h "uninstall" _ rfl), dispatch_uninstall]
    simp only [execCalls, List.filterMap_append, execCalls_controlErrLog]
    split <;> simp [List.filterMap_cons, asExec]

/-- Witness of the amended C6: `restart` on the System-V-style host. -/
theorem sysv_verbs_witness :
    execCalls (main sysvHost Flags.defaults ["restart"]).1 = [("/etc/init.d/Npc", ["restart"])] ∧
      controlCalls (main sysvHost Flags.defaults ["restart"]).1 = [] :=
  (sysv_verbs sysvHost Flags.defaults "restart" [] rfl rfl rfl).1 (by decide)

/-! ## The utility commands -/

/-- C5 at the command line `status`: with the service created, `main` calls
neither `client.GetTaskStatus` nor any other command, leaves the switch and
calls `s.Run()`; `update` on the same host returns without `s.Run()`. -/
theorem status_reaches_service_run :
    (dispatch linuxHost Flags.defaults ["status"]).1 = [Action.serviceRun] ∧
      Action.serviceRun ∈ (main linuxHost Flags.defaults ["status"]).1 ∧
      Action.serviceRun ∉ (main linuxHost Flags.defaults ["update"]).1 := by
  decide

/-! ## Mode selection in `run` -/

theorem run_password (h : Host) (f : Flags) (hp : f.password ≠ "") :
    run h f =
      (f, [Action.initPProf f.pprofAddr,
           Action.goStartLocalServer ⟨f.localType, f.password, f.target, f.localPort⟩
             ⟨f.serverAddr, f.verifyKey, f.connType⟩]) := by
  unfold run
  rw [if_pos hp]

theorem run_direct (h : Host) (f : Flags) (hp : f.password = "")
    (hs : flagOrEnv f.serverAddr h.env "NPC_SERVER_ADDR" ≠ "")
    (hk : flagOrEnv f.verifyKey h.env "NPC_SERVER_VKEY" ≠ "")
    (hc : f.configPath = "") :
    run h f =
      ({ f with serverAddr := flagOrEnv f.serverAddr h.env "NPC_SERVER_ADDR",
                verifyKey := flagOrEnv f.verifyKey h.env "NPC_SERVER_VKEY" },
       [Action.initPProf f.pprofAddr,
        Action.logsInfo ["客户端版本为：%s, 核心版本： %s", h.version, h.coreVersion],
        Action.goReconnectLoop (flagOrEnv f.serverAddr h.env "NPC_SERVER_ADDR")
          (flagOrEnv f.verifyKey h.env "NPC_SERVER_VKEY") f.connType f.proxyUrl
          f.disconnectTime]) := by
  have hp' : ¬ f.password ≠ "" := fun hne => hne hp
  unfold run
  rw [if_neg hp']
  exact if_pos ⟨hk, hs, hc⟩

theorem run_file (h : Host) (f : Flags) (hp : f.password = "")
    (hnot : ¬ (flagOrEnv f.serverAddr h.env "NPC_SERVER_ADDR" ≠ "" ∧
      flagOrEnv f.verifyKey h.env "NPC_SERVER_VKEY" ≠ "" ∧ f.configPath = "")) :
    run h f =
      ({ f with serverAddr := flagOrEnv f.serverAddr h.env "NPC_SERVER_ADDR",
                verifyKey := flagOrEnv f.verifyKey h.env "NPC_SERVER_VKEY",
                configPath := if f.configPath = "" then h.defaultConfigPath else f.configPath },
       [Action.initPProf f.pprofAddr,
        Action.logsInfo ["客户端版本为：%s, 核心版本： %s", h.version, h.coreVersion],
        Action.goStartFromFile
          (if f.configPath = "" then h.defaultConfigPath else f.configPath)]) := by
  have hp' : ¬ f.password ≠ "" := fun hne => hne hp
  unfold run
  rw [if_neg hp']
  exact if_neg (fun ⟨a, b, c⟩ => hnot ⟨b, a, c⟩)

/-- C2: `run` launches exactly one mode, by precedence. A non-empty password
launches the local server with the password, target, local type and local
port, whatever the other flags hold. Otherwise, with the endpoint and the key
(flag, or environment variable when the flag is empty) both non-empty and no
configuration path, it launches the reconnecting client with that endpoint,
key, transport kind, proxy URL and disconnect timeout. Otherwise it launches
the file-driven client with the configuration path, or with the default path
when the flag is empty. With `-server=1.2.3.4:8024 -vkey=abc123` alone the
mode is the reconnecting client over `tcp`. -/
theorem run_mode_precedence (h : Host) (f : Flags) :
    (f.password ≠ "" →
        launches (run h f).2 =
          [Action.goStartLocalServer ⟨f.localType, f.password, f.target, f.localPort⟩
            ⟨f.serverAddr, f.verifyKey, f.connType⟩]) ∧
      (f.password = "" →
        flagOrEnv f.serverAddr h.env "NPC_SERVER_ADDR" ≠ "" →
        flagOrEnv f.verifyKey h.env "NPC_SERVER_VKEY" ≠ "" →
        f.configPath = "" →
        launches (run h f).2 =
          [Action.goReconnectLoop (flagOrEnv f.serverAddr h.env "NPC_SERVER_ADDR")
            (flagOrEnv f.verifyKey h.env "NPC_SERVER_VKEY") f.connType f.proxyUrl
            f.disconnectTime]) ∧
      (f.password = "" →
        ¬ (flagOrEnv f.serverAddr h.env "NPC_SERVER_ADDR" ≠ "" ∧
            flagOrEnv f.verifyKey h.env "NPC_SERVER_VKEY" ≠ "" ∧ f.configPath = "") →
        launches (run h f).2 =
          [Action.goStartFromFile
            (if f.configPath = "" then h.defaultConfigPath else f.configPath)]) ∧
      (launches (run h f).2).length = 1 ∧
      launches (run h { Flags.defaults with
          serverAddr := "1.2.3.4:8024", verifyKey := "abc123" }).2 =
        [Action.goReconnectLoop "1.2.3.4:8024" "abc123" "tcp" "" 60] := by
  refine ⟨?_, ?_, ?_, ?_, ?_⟩
  · intro hp
    rw [run_password h f hp]; rfl
  · intro hp hs hk hc
    rw [run_direct h f hp hs hk hc]; rfl
  · intro hp hnot
    rw [run_file h f hp hnot]; rfl
  · by_cases hp : f.password = ""
    · by_cases hc : flagOrEnv f.serverAddr h.env "NPC_SERVER_ADDR" ≠ "" ∧
          flagOrEnv f.verifyKey h.env "NPC_SERVER_VKEY" ≠ "" ∧ f.configPath = ""
      · rw [run_direct h f hp hc.1 hc.2.1 hc.2.2]; rfl
      · rw [run_file h f hp hc]; rfl
    · rw [run_password h f hp]; rfl
  · rw [run_direct h _ rfl (by simp [flagOrEnv]) (by simp [flagOrEnv]) rfl]; rfl

/-- Witness of C2: one input for each of the three modes. -/
theorem run_mode_precedence_witness :
    launches (run envHost p2pFlags).2 =
        [Action.goStartLocalServer ⟨"p2p", "p2p-secret", "10.0.0.5:80", 2000⟩ ⟨"", "", "tcp"⟩] ∧
      launches (run envHost Flags.defaults).2 = [Action.goReconnectLoop "e1" "e2" "tcp" "" 60] ∧
      launches (run linuxHost Flags.defaults).2 = [Action.goStartFromFile "conf/npc.conf"] :=
  ⟨(run_mode_precedence envHost p2pFlags).1 (by decide),
   (run_mode_precedence envHost Flags.defaults).2.1 rfl (by decide) (by decide) rfl,
   (run_mode_precedence linuxHost Flags.defaults).2.2.1 rfl (by decide)⟩

/-! ## Environment backfill -/

/-- C3, as the spec states it, fails: with the password set, the flags
`-server` and `-vkey` empty and both environment variables set, the local
server is handed the empty endpoint and key, not the values `e1` and `e2` of
the environment. -/
theorem peer_relay_skips_backfill :
    (launches (run envHost p2pFlags).2).map receivedEndpointKey = [some ("", "")] ∧
      flagOrEnv p2pFlags.serverAddr envHost.env "NPC_SERVER_ADDR" = "e1" ∧
      flagOrEnv p2pFlags.verifyKey envHost.env "NPC_SERVER_VKEY" = "e2" := by
  decide

/-- C3, amended: the backfill follows the password test. With an empty
password, the endpoint and the key a launched mode is handed, and the flag
variables `run` leaves, are the flag when it is non-empty and else the
environment variable (empty when absent); with both flags non-empty, `run`
does the same whatever the environment. With a non-empty password the local
server is handed the two flags as they are and the flag variables are left
alone. -/
theorem backfill_after_password (h : Host) (f : Flags) :
    (f.password = "" →
        (∀ a ∈ launches (run h f).2, ∀ e k, receivedEndpointKey a = some (e, k) →
          e = flagOrEnv f.serverAddr h.env "NPC_SERVER_ADDR" ∧
          k = flagOrEnv f.verifyKey h.env "NPC_SERVER_VKEY") ∧
        (run h f).1.serverAddr = flagOrEnv f.serverAddr h.env "NPC_SERVER_ADDR" ∧
        (run h f).1.verifyKey = flagOrEnv f.verifyKey h.env "NPC_SERVER_VKEY") ∧
      (f.serverAddr ≠ "" → f.verifyKey ≠ "" →
        ∀ env : String → Option String, run { h with env := env } f = run h f) ∧
      (f.password ≠ "" →
        (launches (run h f).2).map receivedEndpointKey = [some (f.serverAddr, f.verifyKey)] ∧
        (run h f).1 = f) := by
  refine ⟨?_, ?_, ?_⟩
  · intro hp
    by_cases hc : flagOrEnv f.serverAddr h.env "NPC_SERVER_ADDR" ≠ "" ∧
        flagOrEnv f.verifyKey h.env "NPC_SERVER_VKEY" ≠ "" ∧ f.configPath = ""
    · rw [run_direct h f hp hc.1 hc.2.1 hc.2.2]
      refine ⟨?_, rfl, rfl⟩
      intro a ha e k hr
      have ha' : a = Action.goReconnectLoop (flagOrEnv f.serverAddr h.env "NPC_SERVER_ADDR")
          (flagOrEnv f.verifyKey h.env "NPC_SERVER_VKEY") f.connType f.proxyUrl
          f.disconnectTime := by
        simpa [launches, isLaunch] using ha
      subst ha'
      simp only [receivedEndpointKey, Option.some.injEq, Prod.mk.injEq] at hr
      exact ⟨hr.1.symm, hr.2.symm⟩
    · rw [run_file h f hp hc]
      refine ⟨?_, rfl, rfl⟩
      intro a ha e k hr
      have ha' : a = Action.goStartFromFile
          (if f.configPath = "" then h.defaultConfigPath else f.configPath) := by
        simpa [launches, isLaunch] using ha
      subst ha'
      simp [receivedEndpointKey] at hr
  · intro hs hk env
    simp [run, hs, hk]
  · intro hp
    rw [run_password h f hp]
    exact ⟨rfl, rfl⟩

/-- Witness of the amended C3: the backfill with an empty password, the flags
winning over the environment, and the local server with a password. -/
theorem backfill_after_password_witness :
    (run envHost Flags.defaults).1.serverAddr = "e1" ∧
      run { envHost with env := fun _ => some "other" }
          { Flags.defaults with serverAddr := "1.2.3.4:8024", verifyKey := "abc123" }
        = run envHost { Flags.defaults with serverAddr := "1.2.3.4:8024", verifyKey := "abc123" } ∧
      (launches (run envHost p2pFlags).2).map receivedEndpointKey = [some ("", "")] :=
  ⟨((backfill_after_password envHost Flags.defaults).1 rfl).2.1,
   (backfill_after_password envHost
      { Flags.defaults with serverAddr := "1.2.3.4:8024", verifyKey := "abc123" }).2.1
      (by decide) (by decide) (fun _ => some "other"),
   ((backfill_after_password envHost p2pFlags).2.2 (by decide)).1⟩

/-! ## The failure boundary of `npc.run` -/

theorem awaitExit_not_mem_run (h : Host) (f : Flags) : Action.awaitExit ∉ (run h f).2 := by
  by_cases hp : f.password = ""
  · by_cases hc : flagOrEnv f.serverAddr h.env "NPC_SERVER_ADDR" ≠ "" ∧
        flagOrEnv f.verifyKey h.env "NPC_SERVER_VKEY" ≠ "" ∧ f.configPath = ""
    · rw [run_direct h f hp hc.1 hc.2.1 hc.2.2]; simp
    · rw [run_file h f hp hc]; simp
  · rw [run_password h f hp]; simp

theorem runtimeStack_prefix (trace : List (Fin 256)) (size : Nat) :
    (runtimeStack trace (List.replicate size 0)).1.take
        (runtimeStack trace (List.replicate size 0)).2 = trace.take size := by
  simp [runtimeStack]

/-- C4, as the spec states it, fails: when `run()` panics, the task recovers,
logs and returns; it never reaches the wait on the exit signal, which it does
reach when `run()` returns. -/
theorem fault_skips_termination_wait :
    Action.awaitExit ∉ (npcRun linuxHost Flags.defaults (some (0, "boom")) [103, 111] true).1 ∧
      (npcRun linuxHost Flags.defaults (some (0, "boom")) [103, 111] true).2
        = TaskEnd.returnedNil ∧
      Action.awaitExit ∈ (npcRun linuxHost Flags.defaults none [103, 111] true).1 := by
  refine ⟨?_, rfl, ?_⟩
  · show Action.awaitExit ∉
      [Action.recover "boom",
       Action.logsWarningStack "npc: panic serving %v: %v\n%s" "boom"
         ((runtimeStack [103, 111] (List.replicate (64 <<< 10) 0)).1.take
           (runtimeStack [103, 111] (List.replicate (64 <<< 10) 0)).2)]
    generalize (runtimeStack [103, 111] (List.replicate (64 <<< 10) 0)).1.take
      (runtimeStack [103, 111] (List.replicate (64 <<< 10) 0)).2 = logged
    simp
  · decide

/-- C4, amended: when `run()` panics with a value, whatever it did before, the
boundary recovers the value and logs it with the stack trace cut at 64 KiB:
the logged bytes are the first `64 << 10` bytes of the trace, all of it when it
is shorter. The panic does not leave the task, which returns right after the
log line, without waiting for the exit signal. When `run()` returns, the task
waits for the exit signal: it logs `stop...` and returns once the signal fires,
and stays blocked when it never fires. -/
theorem npcRun_failure_boundary (h : Host) (f : Flags) (k : Nat) (v : String)
    (stackTrace : List (Fin 256)) (exitFires : Bool) :
    npcRun h f (some (k, v)) stackTrace exitFires =
        ((run h f).2.take k ++
          [Action.recover v,
           Action.logsWarningStack "npc: panic serving %v: %v\n%s" v (stackTrace.take 65536)],
         TaskEnd.returnedNil) ∧
      (stackTrace.take 65536).length = min 65536 stackTrace.length ∧
      (stackTrace.take 65536).length ≤ 64 * 1024 ∧
      (stackTrace.length ≤ 64 * 1024 → stackTrace.take 65536 = stackTrace) ∧
      (npcRun h f (some (k, v)) stackTrace exitFires).2 ≠ TaskEnd.propagated v ∧
      Action.awaitExit ∉ (npcRun h f (some (k, v)) stackTrace exitFires).1 ∧
      npcRun h f none stackTrace true =
        ((run h f).2 ++ [Action.awaitExit, Action.logsWarning ["stop..."]],
         TaskEnd.returnedNil) ∧
      npcRun h f none stackTrace false =
        ((run h f).2 ++ [Action.awaitExit], TaskEnd.blockedOnExit) := by
  have e0 : npcRun h f (some (k, v)) stackTrace exitFires =
      ((run h f).2.take k ++
        [Action.recover v,
         Action.logsWarningStack "npc: panic serving %v: %v\n%s" v
           ((runtimeStack stackTrace (List.replicate (64 <<< 10) 0)).1.take
             (runtimeStack stackTrace (List.replicate (64 <<< 10) 0)).2)],
       TaskEnd.returnedNil) := rfl
  have e : npcRun h f (some (k, v)) stackTrace exitFires =
      ((run h f).2.take k ++
        [Action.recover v,
         Action.logsWarningStack "npc: panic serving %v: %v\n%s" v (stackTrace.take 65536)],
       TaskEnd.returnedNil) := by
    rw [e0, runtimeStack_prefix]
    rfl
  refine ⟨e, ?_, ?_, ?_, ?_, ?_, ?_, ?_⟩
  · rw [List.length_take]
  · rw [List.length_take]; omega
  · intro hl
    exact List.take_of_length_le (by omega)
  · rw [e]; simp
  · rw [e]
    intro hm
    rcases List.mem_append.1 hm with hm | hm
    · exact awaitExit_not_mem_run h f (List.mem_of_mem_take hm)
    · simp at hm
  · simp [npcRun, npcRunBody, npcRunDeferred]
  · simp [npcRun, npcRunBody]

/-- Witness of the amended C4: a trace of two bytes is logged whole. -/
theorem npcRun_failure_boundary_witness :
    npcRun linuxHost Flags.defaults (some (1, "boom")) [103, 111] false =
      ([Action.initPProf "", Action.recover "boom",
        Action.logsWarningStack "npc: panic serving %v: %v\n%s" "boom" [103, 111]],
       TaskEnd.returnedNil) :=
  (npcRun_failure_boundary linuxHost Flags.defaults 1 "boom" [103, 111] false).1

/-! ## The reconnection loop -/

theorem loopTrace_round (a : ClientArgs) (outcomes : Nat → String) (steps i : Nat) :
    loopTrace a outcomes (steps + 3) LoopPoint.start i =
      reconnectRound a ++ loopTrace a outcomes steps LoopPoint.start (i + 1) := by
  simp [loopTrace, loopStep, reconnectRound, timeSecond]

theorem loopTrace_rounds (a : ClientArgs) (outcomes : Nat → String) (n steps i : Nat) :
    loopTrace a outcomes (3 * n + steps) LoopPoint.start i =
      (List.replicate n (reconnectRound a)).flatten ++
        loopTrace a outcomes steps LoopPoint.start (i + n) := by
  induction n generalizing i with
  | zero => simp
  | succ m ih =>
    have e : 3 * (m + 1) + steps = (3 * m + steps) + 3 := by ring
    rw [e, loopTrace_round, ih, List.replicate_succ, List.flatten_cons, List.append_assoc]
    have e2 : i + 1 + m = i + (m + 1) := by ring
    rw [e2]

theorem loopTrace_length (a : ClientArgs) (outcomes : Nat → String) (steps : Nat)
    (pc : LoopPoint) (i : Nat) : (loopTrace a outcomes steps pc i).length = steps := by
  induction steps generalizing pc i with
  | zero => rfl
  | succ m ih => simp [loopTrace, ih]

theorem loopTrace_outcomes (a : ClientArgs) (o1 o2 : Nat → String) (steps : Nat)
    (pc : LoopPoint) (i : Nat) : loopTrace a o1 steps pc i = loopTrace a o2 steps pc i := by
  induction steps generalizing pc i with
  | zero => rfl
  | succ m ih =>
    cases pc <;> simp [loopTrace, loopStep, ih]

theorem countP_isStart_rounds (a : ClientArgs) (n : Nat) :
    (List.replicate n (reconnectRound a)).flatten.countP isStart = n := by
  induction n with
  | zero => rfl
  | succ m ih =>
    rw [List.replicate_succ, List.flatten_cons, List.countP_append, ih]
    simp [reconnectRound, isStart, List.countP_cons]
    omega

/-- C7: for every sequence of outcomes of `Start()` and every `n`, the first
`3 * n + 1` statements of the loop are `n` rounds `Start()`, reconnect log,
five-second sleep, followed by invocation `n + 1` of `Start()`; so every
invocation is reached, and between two consecutive invocations lie exactly one
log line and one sleep of `time.Second * 5`. The statements do not depend on
the outcomes, and the loop executes any number of statements: it has no exit. -/
theorem reconnect_loop_forever (a : ClientArgs) (outcomes : Nat → String) (n : Nat) :
    reconnectLoop a outcomes (3 * n + 1) =
        (List.replicate n (reconnectRound a)).flatten ++
          [Action.rpClientStart a.server a.vKey a.tp a.proxyUrl a.disconnectTime] ∧
      (reconnectLoop a outcomes (3 * n + 1)).countP isStart = n + 1 ∧
      (∀ steps, (reconnectLoop a outcomes steps).length = steps) ∧
      (∀ (outcomes' : Nat → String) (steps : Nat),
        reconnectLoop a outcomes' steps = reconnectLoop a outcomes steps) ∧
      (∀ (outcome : String) (pc : LoopPoint),
        (loopStep a outcome pc).1 = Action.timeSleep (5 * 1000000000) ∨
        ∀ ns, (loopStep a outcome pc).1 ≠ Action.timeSleep ns) := by
  have e : reconnectLoop a outcomes (3 * n + 1) =
      (List.replicate n (reconnectRound a)).flatten ++
        [Action.rpClientStart a.server a.vKey a.tp a.proxyUrl a.disconnectTime] := by
    unfold reconnectLoop
    rw [loopTrace_rounds]
    simp [loopTrace, loopStep]
  refine ⟨e, ?_, ?_, ?_, ?_⟩
  · rw [e, List.countP_append, countP_isStart_rounds]
    simp [isStart]
  · intro steps
    exact loopTrace_length a outcomes steps _ _
  · intro outcomes' steps
    exact loopTrace_outcomes a outcomes' outcomes steps _ _
  · intro outcome pc
    cases pc
    · right; intro ns; simp [loopStep]
    · right; intro ns; simp [loopStep]
    · left; simp [loopStep, timeSecond]

end Npc
